import Mathlib

/-!
Shallow embedding of the dispatch / ride-lifecycle core of the uber-clone
backend (Python, Flask + MongoDB).  Sources embedded here:

* `backend/utils/security.py`   — `validate_location`, `validate_ride_data`,
  `calculate_distance` (haversine), `estimate_ride_fare`
* `backend/services/pricing.py` — `calculate_fare`, `get_surge_multiplier`,
  `get_discount_amount`
* `backend/services/matching.py` — `find_nearest_driver` and its helpers
* `backend/api/rides.py`        — `request_ride`, `accept_ride`,
  `complete_ride`, `cancel_ride`
* `backend/api/drivers.py` / `backend/api/riders.py` — location updates
* `backend/sockets/driver_socket.py` — `handle_ride_acceptance`

Modelling conventions:
* Monetary and coordinate values are rationals (Python floats in the source);
  `round(x, 2)` is modelled by `round2` (round half to even, as Python does).
* MongoDB collections are lists of records; `find_one` is `List.find?` on the
  translated filter, `update_one` rewrites the first matching record.
  Every `$set` in the source writes a fresh `datetime.utcnow()` timestamp, so
  a matched record is always modified; hence `modified_count > 0` is modelled
  as "some record matched the filter".
* `datetime.utcnow()` values are epoch seconds passed in as a `now : ℚ`
  parameter; the surge multiplier's hour-of-day and weekday are passed as
  explicit `hour weekday : ℕ` parameters.
* The haversine distance is a real-valued (hence non-executable) function;
  the HTTP handlers therefore take the distance function as an explicit
  parameter `distFn`, as they take the dispatch jitter source `rand`.
-/

/-- Python `round(x, 2)`: round half to even at two decimal places. -/
def roundHalfEven (q : ℚ) : ℤ :=
  let f : ℤ := ⌊q⌋
  let r : ℚ := q - f
  if r < 1/2 then f
  else if 1/2 < r then f + 1
  else if f % 2 = 0 then f else f + 1

/-- Round a rational to 2 decimal places, Python-style. -/
def round2 (q : ℚ) : ℚ := (roundHalfEven (100 * q) : ℚ) / 100

/-- Ride statuses occurring in the source (string literals there). -/
inductive RideStatus
  | requested
  | accepted
  | enroute
  | started
  | completed
  | cancelled
deriving DecidableEq

/-- `pricing.py` `base_fares.get(ride_type, 2.50)`. -/
def base_fares (t : String) : ℚ :=
  if t = "economy" then 5/2
  else if t = "comfort" then 3
  else if t = "premium" then 9/2
  else if t = "xl" then 5
  else 5/2

/-- `pricing.py` `per_km_rates.get(ride_type, 1.50)`. -/
def per_km_rates (t : String) : ℚ :=
  if t = "economy" then 3/2
  else if t = "comfort" then 9/5
  else if t = "premium" then 5/2
  else if t = "xl" then 14/5
  else 3/2

/-- `pricing.py` `per_minute_rates.get(ride_type, 0.15)`. -/
def per_minute_rates (t : String) : ℚ :=
  if t = "economy" then 3/20
  else if t = "comfort" then 1/5
  else if t = "premium" then 3/10
  else if t = "xl" then 7/20
  else 3/20

/-- `pricing.py` `min_fares.get(ride_type, 5.00)`. -/
def min_fares (t : String) : ℚ :=
  if t = "economy" then 5
  else if t = "comfort" then 6
  else if t = "premium" then 8
  else if t = "xl" then 10
  else 5

/-- `pricing.py` `get_surge_multiplier`: peak hours are 7-9 and 17-19
(inclusive), the weekend is weekday 5 or 6; each condition adds its
increment (0.2 resp. 0.1) on top of the base 1.0. -/
def get_surge_multiplier (hour weekday : ℕ) : ℚ :=
  let is_peak_hour := (7 ≤ hour ∧ hour ≤ 9) ∨ (17 ≤ hour ∧ hour ≤ 19)
  let is_weekend := 5 ≤ weekday
  let surge : ℚ := 1
  let surge := if is_peak_hour then surge + 2/10 else surge
  let surge := if is_weekend then surge + 1/10 else surge
  surge

/-- `pricing.py` `get_discount_amount`: always 0 (all branches are stubs). -/
def get_discount_amount : ℚ := 0

/-- `security.py` `estimate_ride_fare` ride-type `multipliers.get(t, 1.0)`. -/
def ride_type_multipliers (t : String) : ℚ :=
  if t = "economy" then 1
  else if t = "comfort" then 13/10
  else if t = "premium" then 9/5
  else if t = "xl" then 2
  else 1

/-- `security.py` `estimate_ride_fare(distance_km, ride_type)` with the
default `base_fare=2.50` and `per_km_rate=1.50` (the only call, in
`request_ride`, passes no overrides): `(base + d * rate) * multiplier`
rounded to two decimals.  No minimum-fare floor, no surge multiplier. -/
def estimate_ride_fare (distance_km : ℚ) (ride_type : String) : ℚ :=
  let base_fare : ℚ := 5/2
  let per_km_rate : ℚ := 3/2
  let distance_fare := distance_km * per_km_rate
  let multiplier := ride_type_multipliers ride_type
  round2 ((base_fare + distance_fare) * multiplier)

/-- The fare-estimate formula as the specification words it:
`max(minFare, baseFare + d * perKmRate) * surgeMultiplier`, rounded to two
decimal places.  Used only to compare the spec against the source. -/
def specEstimate (d : ℚ) (c : String) (surge : ℚ) : ℚ :=
  round2 (max (min_fares c) (base_fares c + d * per_km_rates c) * surge)

/-- The spec's increment for peak hours, used to state additivity. -/
def peak_increment (hour : ℕ) : ℚ :=
  if (7 ≤ hour ∧ hour ≤ 9) ∨ (17 ≤ hour ∧ hour ≤ 19) then 2/10 else 0

/-- The spec's increment for weekends, used to state additivity. -/
def weekend_increment (weekday : ℕ) : ℚ :=
  if 5 ≤ weekday then 1/10 else 0

/-- A submitted location payload: either not a dict, a dict missing the
`lat`/`lng` keys (or with values `float()` rejects), or numeric coords. -/
inductive LocPayload
  | notDict
  | missingKeys
  | coords (lat lng : ℚ)
deriving DecidableEq

/-- `security.py` `validate_location`. -/
def validate_location : LocPayload → Bool
  | .notDict => false
  | .missingKeys => false
  | .coords lat lng =>
      decide (-90 ≤ lat) && decide (lat ≤ 90) &&
      decide (-180 ≤ lng) && decide (lng ≤ 180)

/-- A `users` collection record (only the fields the handlers read). -/
structure User where
  id : ℕ
  userType : String
deriving DecidableEq

/-- A `rides` collection record. -/
structure Ride where
  id : ℕ
  riderId : ℕ
  driverId : Option ℕ
  status : RideStatus
  rideType : String
  passengers : ℕ
  distanceKm : ℚ
  estimatedFare : ℚ
  finalFare : Option ℚ
  createdAt : ℚ
  acceptedAt : Option ℚ
  startedAt : Option ℚ
  completedAt : Option ℚ
  cancelledAt : Option ℚ
  cancelledBy : Option ℕ
  cancellationReason : String
deriving DecidableEq

/-- A `drivers` collection record.  `id` is the Mongo record `_id`;
`userId` is the `user_id` field referencing the `users` record. -/
structure Driver where
  id : ℕ
  userId : ℕ
  isOnline : Bool
  currentRideId : Option ℕ
  currentLocation : Option LocPayload
  vehicleType : String
  earnings : ℚ
  totalRides : ℕ
deriving DecidableEq

/-- A `riders` collection record. -/
structure RiderRec where
  userId : ℕ
  currentLocation : Option LocPayload
  totalRides : ℕ
deriving DecidableEq

/-- A `payments` collection record (inserted by `complete_ride`). -/
structure Payment where
  rideId : ℕ
  riderId : ℕ
  driverId : ℕ
  amount : ℚ
deriving DecidableEq

/-- The database: one list per collection touched by the handlers.
`notifications` records `(user_id, type)` of each `send_notification`. -/
structure DB where
  users : List User
  rides : List Ride
  drivers : List Driver
  riders : List RiderRec
  driverLocations : List (ℕ × LocPayload)
  payments : List Payment
  notifications : List (ℕ × String)
deriving DecidableEq

/-- Mongo `update_one`: rewrite the first record matching the filter. -/
def updateFirst (p : α → Bool) (f : α → α) : List α → List α
  | [] => []
  | x :: xs => if p x then f x :: xs else x :: updateFirst p f xs

/-- Whether `update_one`'s filter matched some record (every `$set` in the
source writes a fresh timestamp, so matched implies `modified_count > 0`). -/
def matchedOne (p : α → Bool) (l : List α) : Bool := (l.find? p).isSome

/-- The HTTP outcome of a handler: status code, the literal message or error
string of the JSON body, the `final_fare` field when the body carries one,
and the database after the call. -/
structure ApiResult where
  code : ℕ
  body : String
  fare : Option ℚ
  db : DB
deriving DecidableEq

/-- `security.py` `validate_ride_data`. -/
def validate_ride_data (pickup destination : Option LocPayload)
    (ride_type : Option String) : Bool × String :=
  if pickup.isNone then (false, "Missing required field: pickup")
  else if destination.isNone then (false, "Missing required field: destination")
  else if ride_type.isNone then (false, "Missing required field: ride_type")
  else if !validate_location (pickup.getD .notDict) then
    (false, "Invalid pickup location")
  else if !validate_location (destination.getD .notDict) then
    (false, "Invalid destination location")
  else if ([ "economy", "comfort", "premium", "xl"].contains (ride_type.getD "")) = false
  then (false, "Invalid ride type")
  else (true, "Valid ride data")

/-- `matching.py` `is_vehicle_compatible`: the compatibility matrix. -/
def is_vehicle_compatible (vehicle_type ride_type : String) : Bool :=
  let l :=
    if ride_type = "economy" then ["sedan", "hatchback", "compact"]
    else if ride_type = "comfort" then ["sedan", "suv", "luxury"]
    else if ride_type = "premium" then ["luxury", "suv"]
    else if ride_type = "xl" then ["xl", "suv", "van"]
    else []
  l.contains vehicle_type

/-- `matching.py` `filter_drivers_by_ride_type` (a missing `vehicle_type`
field defaults to `"sedan"`; our records always carry one). -/
def filter_drivers_by_ride_type (drivers : List Driver) (ride_type : String) :
    List Driver :=
  drivers.filter (fun d => is_vehicle_compatible d.vehicleType ride_type)

/-- Geodesic distance from a pickup point to a driver's stored location,
`none` when the driver has no usable coordinates (Mongo `$near` skips such
records, and `find_closest_driver` skips them explicitly). -/
def driverDist (distFn : ℚ → ℚ → ℚ → ℚ → ℚ) (plat plng : ℚ) (d : Driver) :
    Option ℚ :=
  match d.currentLocation with
  | some (.coords la ln) => some (distFn plat plng la ln)
  | _ => none

/-- Insertion step for the distance-ordered `$near` result. -/
def insertByKey (key : α → ℚ) (x : α) : List α → List α
  | [] => [x]
  | y :: ys => if key x ≤ key y then x :: y :: ys else y :: insertByKey key x ys

/-- Stable sort by a rational key, modelling Mongo's `$near` ordering. -/
def sortByKey (key : α → ℚ) : List α → List α
  | [] => []
  | x :: xs => insertByKey key x (sortByKey key xs)

/-- `matching.py` `find_closest_driver`: scan the candidates, perturb each
distance by the jitter factor `1 + (rand i - 0.5) * 0.2` and keep the
minimum; drivers without coordinates are skipped.  `rand i` models the
`random.random()` draw of iteration `i`. -/
def find_closest_driver (distFn : ℚ → ℚ → ℚ → ℚ → ℚ) (rand : ℕ → ℚ)
    (drivers : List Driver) (plat plng : ℚ) : Option Driver :=
  let step : Option Driver × Option ℚ → ℕ × Driver → Option Driver × Option ℚ :=
    fun acc p =>
      match driverDist distFn plat plng p.2 with
      | some distance =>
          let random_factor := 1 + (rand p.1 - 1/2) * (2/10)
          let adjusted_distance := distance * random_factor
          match acc.2 with
          | none => (some p.2, some adjusted_distance)
          | some m =>
              if adjusted_distance < m then (some p.2, some adjusted_distance)
              else acc
      | none => acc
  (drivers.enum.foldl step (none, none)).1

/-- `matching.py` `find_nearest_driver` with the default
`max_distance_km=10`: query online, unoccupied drivers within 10 km of the
pickup ordered by distance (Mongo `$near`), take 20, filter by vehicle
compatibility, then pick the jittered-closest one. -/
def find_nearest_driver (distFn : ℚ → ℚ → ℚ → ℚ → ℚ) (rand : ℕ → ℚ)
    (drivers : List Driver) (plat plng : ℚ) (ride_type : String) :
    Option Driver :=
  let near := fun d =>
    d.isOnline && d.currentRideId.isNone &&
      (match driverDist distFn plat plng d with
       | some dist => decide (dist ≤ 10)
       | none => false)
  let available_drivers :=
    (sortByKey (fun d => (driverDist distFn plat plng d).getD 0)
      (drivers.filter near)).take 20
  if available_drivers.isEmpty then none
  else
    let compatible_drivers := filter_drivers_by_ride_type available_drivers ride_type
    if compatible_drivers.isEmpty then none
    else find_closest_driver distFn rand compatible_drivers plat plng

/-- `pricing.py` `calculate_fare(ride_data)`: base + distance + time fares,
the time component only when both `started_at` and `completed_at` are
present in the record; then the surge multiplier, then the (always zero)
discount, then the minimum-fare floor, rounded once at the return. -/
def calculate_fare (hour weekday : ℕ) (ride : Ride) : ℚ :=
  let ride_type := ride.rideType
  let distance_km := ride.distanceKm
  let time_fare : ℚ :=
    match ride.startedAt, ride.completedAt with
    | some s, some e => ((e - s) / 60) * per_minute_rates ride_type
    | _, _ => 0
  let distance_fare := distance_km * per_km_rates ride_type
  let base_fare := base_fares ride_type
  let total_fare := base_fare + distance_fare + time_fare
  let total_fare := total_fare * get_surge_multiplier hour weekday
  let total_fare := total_fare - get_discount_amount
  let total_fare := max total_fare (min_fares ride_type)
  round2 total_fare

/-- The final-fare formula as the specification words it:
`max(minFare, (base + d * perKm + duration * perMinute) * surge)` rounded to
two decimal places at the point of return. -/
def specFinalFare (d dur : ℚ) (c : String) (surge : ℚ) : ℚ :=
  round2 (max (min_fares c)
    ((base_fares c + d * per_km_rates c + dur * per_minute_rates c) * surge))

/-- The `update_one` filter of `accept_ride`'s ride-status write: it matches
on `_id` alone — the write is not conditioned on the ride's status or on the
driver's `current_ride_id`. -/
def accept_ride_filter (rideId : ℕ) (r : Ride) : Bool := r.id == rideId

/-- The statuses `request_ride` counts as an active ride. -/
def activeStatuses : List RideStatus :=
  [.requested, .accepted, .enroute, .started]

/-- The active-ride filter of `request_ride`'s conflict check. -/
def activeRideOf (riderId : ℕ) (r : Ride) : Bool :=
  r.riderId == riderId && activeStatuses.contains r.status

/-- `api/rides.py` `request_ride` (lines 18-135).  `distFn` stands for the
haversine `calculate_distance`, `rand` for the `random.random()` draws of
the matching service, `now` for `datetime.utcnow()`, `newId` for the Mongo
`_id` generated by `insert_one`. -/
def request_ride (distFn : ℚ → ℚ → ℚ → ℚ → ℚ) (rand : ℕ → ℚ) (now : ℚ)
    (newId : ℕ) (db : DB) (currentUserId : ℕ)
    (pickup destination : Option LocPayload) (ride_type : Option String)
    (passengers : Option ℕ) : ApiResult :=
  let v := validate_ride_data pickup destination ride_type
  if v.1 = false then ⟨400, v.2, none, db⟩
  else
    match List.find? (fun u => u.id == currentUserId) db.users with
    | none => ⟨404, "User not found", none, db⟩
    | some user =>
      if user.userType ≠ "rider" then
        ⟨403, "Only riders can request rides", none, db⟩
      else
        match List.find? (activeRideOf currentUserId) db.rides with
        | some _ => ⟨400, "You already have an active ride", none, db⟩
        | none =>
          match pickup, destination with
          | some (.coords plat plng), some (.coords dlat dlng) =>
            let distance_km := distFn plat plng dlat dlng
            let rt := ride_type.getD ""
            let estimated_fare := estimate_ride_fare distance_km rt
            let ride : Ride :=
              { id := newId, riderId := currentUserId, driverId := none
                status := .requested, rideType := rt
                passengers := passengers.getD 1
                distanceKm := round2 distance_km
                estimatedFare := estimated_fare, finalFare := none
                createdAt := now, acceptedAt := none, startedAt := none
                completedAt := none, cancelledAt := none, cancelledBy := none
                cancellationReason := "" }
            let db1 : DB := { db with rides := db.rides ++ [ride] }
            match find_nearest_driver distFn rand db1.drivers plat plng rt with
            | some driver =>
                let rides2 := updateFirst (fun r => r.id == newId)
                  (fun r => { r with
                    driverId := some driver.id
                    status := .accepted
                    acceptedAt := some now })
                  db1.rides
                let db2 : DB := { db1 with
                  rides := rides2
                  notifications := db1.notifications ++
                    [(driver.id, "new_ride_request"),
                     (currentUserId, "ride_accepted")] }
                ⟨201, "Ride request accepted", some estimated_fare, db2⟩
            | none =>
                ⟨201, "Ride request submitted, searching for driver",
                  some estimated_fare, db1⟩
          -- unreachable: validate_ride_data established numeric coords
          | _, _ => ⟨500, "Internal server error", none, db⟩

/-- `api/rides.py` `accept_ride` (lines 137-220): check-then-act — driver
busy and ride status are checked by separate reads, then the ride write is
filtered by `_id` only (`accept_ride_filter`), then the driver record is
marked busy. -/
def accept_ride (now : ℚ) (db : DB) (currentUserId : ℕ) (rideId : ℕ) :
    ApiResult :=
  match List.find? (fun u => u.id == currentUserId) db.users with
  | none => ⟨404, "User not found", none, db⟩
  | some user =>
    if user.userType ≠ "driver" then
      ⟨403, "Only drivers can accept rides", none, db⟩
    else
      match List.find? (fun d => d.userId == currentUserId) db.drivers with
      | none => ⟨404, "Driver profile not found", none, db⟩
      | some driver =>
        if driver.currentRideId.isSome then
          ⟨400, "Driver already has an active ride", none, db⟩
        else
          match List.find? (fun r => r.id == rideId) db.rides with
          | none => ⟨404, "Ride not found", none, db⟩
          | some ride =>
            if ride.status ≠ .requested then
              ⟨400, "Ride is not available for acceptance", none, db⟩
            else
              let matched := matchedOne (accept_ride_filter rideId) db.rides
              let rides1 := updateFirst (accept_ride_filter rideId)
                (fun r => { r with
                  driverId := some currentUserId
                  status := .accepted
                  acceptedAt := some now })
                db.rides
              if matched then
                let drivers1 := updateFirst (fun d => d.userId == currentUserId)
                  (fun d => { d with
                    currentRideId := some rideId
                    isOnline := false }) db.drivers
                ⟨200, "Ride accepted successfully", none,
                  { db with
                    rides := rides1
                    drivers := drivers1
                    notifications := db.notifications ++
                      [(ride.riderId, "ride_accepted")] }⟩
              else
                ⟨500, "Failed to accept ride", none,
                  { db with rides := rides1 }⟩

/-- `api/rides.py` `complete_ride` (lines 284-382).  The request body
`data` may carry a `final_fare` override — the parameter is bound here as
in the source (`data = request.get_json()`) and, as in the source, never
read: the fare always comes from `calculate_fare(ride)`, evaluated on the
ride as stored, i.e. before `completed_at` is written. -/
def complete_ride (hour weekday : ℕ) (now : ℚ) (db : DB)
    (currentUserId : ℕ) (rideId : ℕ) (data : Option ℚ) : ApiResult :=
  match List.find? (fun u => u.id == currentUserId) db.users with
  | none => ⟨404, "User not found", none, db⟩
  | some user =>
    if user.userType ≠ "driver" then
      ⟨403, "Only drivers can complete rides", none, db⟩
    else
      match List.find? (fun r => r.id == rideId) db.rides with
      | none => ⟨404, "Ride not found", none, db⟩
      | some ride =>
        match ride.driverId with
        -- `ride['driver_id']` raises KeyError on an unassigned ride,
        -- caught by the blanket except: 500
        | none => ⟨500, "Internal server error", none, db⟩
        | some assigned =>
          if assigned ≠ currentUserId then
            ⟨403, "You are not assigned to this ride", none, db⟩
          else if ride.status ≠ .started then
            ⟨400, "Ride cannot be completed in current status", none, db⟩
          else
            let final_fare := calculate_fare hour weekday ride
            let matched := matchedOne (fun r => r.id == rideId) db.rides
            let rides1 := updateFirst (fun r => r.id == rideId)
              (fun r => { r with
                status := .completed
                completedAt := some now
                finalFare := some final_fare }) db.rides
            if matched then
              let drivers1 := updateFirst (fun d => d.userId == currentUserId)
                (fun d => { d with
                  currentRideId := none
                  isOnline := true
                  earnings := d.earnings + final_fare
                  totalRides := d.totalRides + 1 }) db.drivers
              let riders1 := updateFirst (fun r => r.userId == ride.riderId)
                (fun r => { r with totalRides := r.totalRides + 1 }) db.riders
              ⟨200, "Ride completed successfully", some final_fare,
                { db with
                  rides := rides1
                  drivers := drivers1
                  riders := riders1
                  payments := db.payments ++
                    [⟨rideId, ride.riderId, currentUserId, final_fare⟩]
                  notifications := db.notifications ++
                    [(ride.riderId, "ride_completed")] }⟩
            else
              ⟨500, "Failed to complete ride", none,
                { db with rides := rides1 }⟩

/-- `api/rides.py` `cancel_ride` (lines 384-465). -/
def cancel_ride (now : ℚ) (db : DB) (currentUserId : ℕ) (rideId : ℕ)
    (reason : Option String) : ApiResult :=
  match List.find? (fun u => u.id == currentUserId) db.users with
  | none => ⟨404, "User not found", none, db⟩
  | some _user =>
    match List.find? (fun r => r.id == rideId) db.rides with
    | none => ⟨404, "Ride not found", none, db⟩
    | some ride =>
      if ride.riderId ≠ currentUserId ∧ ride.driverId ≠ some currentUserId then
        ⟨403, "You are not authorized to cancel this ride", none, db⟩
      else if ride.status = .completed ∨ ride.status = .cancelled then
        ⟨400, "Ride cannot be cancelled in current status", none, db⟩
      else
        let matched := matchedOne (fun r => r.id == rideId) db.rides
        let rides1 := updateFirst (fun r => r.id == rideId)
          (fun r => { r with
            status := .cancelled
            cancelledAt := some now
            cancelledBy := some currentUserId
            cancellationReason := reason.getD "No reason provided" })
          db.rides
        if matched then
          match ride.driverId with
          | some did =>
            let drivers1 := updateFirst (fun d => d.userId == did)
              (fun d => { d with currentRideId := none, isOnline := true })
              db.drivers
            ⟨200, "Ride cancelled successfully", none,
              { db with
                rides := rides1
                drivers := drivers1
                notifications := db.notifications ++
                  [(did, "ride_cancelled"), (ride.riderId, "ride_cancelled")] }⟩
          | none =>
            ⟨200, "Ride cancelled successfully", none,
              { db with
                rides := rides1
                notifications := db.notifications ++
                  [(ride.riderId, "ride_cancelled")] }⟩
        else
          ⟨500, "Failed to cancel ride", none, { db with rides := rides1 }⟩

/-- The outcome of a socket handler: which event it emits, and the database
afterwards. -/
inductive SocketEvent
  | errorMsg (m : String)
  | rideAcceptedSuccess
deriving DecidableEq

/-- Socket handler result. -/
structure SocketResult where
  event : SocketEvent
  db : DB
deriving DecidableEq

/-- `sockets/driver_socket.py` `handle_ride_acceptance` (lines 165-218):
no status check and no driver-busy check at all — the ride is updated
(filtered by `_id` only) and the driver is marked busy whenever the ride
id matches some record. -/
def handle_ride_acceptance (now : ℚ) (db : DB)
    (driver_id ride_id : Option ℕ) : SocketResult :=
  match driver_id, ride_id with
  | some did, some rid =>
    let matched := matchedOne (fun r => r.id == rid) db.rides
    let rides1 := updateFirst (fun r => r.id == rid)
      (fun r => { r with
        driverId := some did
        status := .accepted
        acceptedAt := some now }) db.rides
    if matched then
      let drivers1 := updateFirst (fun d => d.userId == did)
        (fun d => { d with
          currentRideId := some rid
          isOnline := false }) db.drivers
      ⟨.rideAcceptedSuccess, { db with rides := rides1, drivers := drivers1 }⟩
    else ⟨.errorMsg "Failed to accept ride", { db with rides := rides1 }⟩
  | _, _ => ⟨.errorMsg "Driver ID and ride ID required", db⟩

/-- `api/drivers.py` `update_driver_location` (lines 133-185).  `payload`
is `data.get('location')` (`none` when absent or falsy).  On success both
the driver record and the `driver_locations` collection (upsert) are
written; the response is 200 either way once validation passes. -/
def update_driver_location (db : DB) (currentUserId : ℕ)
    (payload : Option LocPayload) : ApiResult :=
  match List.find? (fun u => u.id == currentUserId) db.users with
  | none => ⟨404, "User not found", none, db⟩
  | some user =>
    if user.userType ≠ "driver" then
      ⟨403, "Only drivers can update location", none, db⟩
    else
      match payload with
      | none => ⟨400, "Invalid location data", none, db⟩
      | some loc =>
        if validate_location loc = false then
          ⟨400, "Invalid location data", none, db⟩
        else
          let matched := matchedOne (fun d => d.userId == currentUserId)
            db.drivers
          let drivers1 := updateFirst (fun d => d.userId == currentUserId)
            (fun d => { d with currentLocation := some loc }) db.drivers
          let locs1 :=
            if matchedOne (fun e => e.1 == currentUserId) db.driverLocations
            then updateFirst (fun e => e.1 == currentUserId)
              (fun e => (e.1, loc)) db.driverLocations
            else db.driverLocations ++ [(currentUserId, loc)]
          let db1 : DB := { db with drivers := drivers1, driverLocations := locs1 }
          if matched then ⟨200, "Location updated successfully", none, db1⟩
          else ⟨200, "No changes made", none, db1⟩

/-- `api/riders.py` `update_rider_location` (lines 75-115). -/
def update_rider_location (db : DB) (currentUserId : ℕ)
    (payload : Option LocPayload) : ApiResult :=
  match List.find? (fun u => u.id == currentUserId) db.users with
  | none => ⟨404, "User not found", none, db⟩
  | some user =>
    if user.userType ≠ "rider" then
      ⟨403, "Only riders can update location", none, db⟩
    else
      match payload with
      | none => ⟨400, "Invalid location data", none, db⟩
      | some loc =>
        if validate_location loc = false then
          ⟨400, "Invalid location data", none, db⟩
        else
          let matched := matchedOne (fun r => r.userId == currentUserId)
            db.riders
          let riders1 := updateFirst (fun r => r.userId == currentUserId)
            (fun r => { r with currentLocation := some loc }) db.riders
          let db1 : DB := { db with riders := riders1 }
          if matched then ⟨200, "Location updated successfully", none, db1⟩
          else ⟨200, "No changes made", none, db1⟩

/-- Python `math.radians`. -/
noncomputable def radians (x : ℝ) : ℝ := x * (Real.pi / 180)

/-- The intermediate `a` of `security.py` `calculate_distance`:
`sin(dlat/2)^2 + cos(lat1) * cos(lat2) * sin(dlon/2)^2` on the
radian-converted inputs. -/
noncomputable def haversine_a (lat1 lon1 lat2 lon2 : ℝ) : ℝ :=
  Real.sin ((radians lat2 - radians lat1) / 2) ^ 2 +
    Real.cos (radians lat1) * Real.cos (radians lat2) *
      Real.sin ((radians lon2 - radians lon1) / 2) ^ 2

/-- `security.py` `calculate_distance` (lines 157-176): haversine distance
in kilometres, `c * r` with `c = 2 * asin(sqrt(a))` and `r = 6371`. -/
noncomputable def calculate_distance (lat1 lon1 lat2 lon2 : ℝ) : ℝ :=
  2 * Real.arcsin (Real.sqrt (haversine_a lat1 lon1 lat2 lon2)) * 6371

/-! ### Concrete scenario data used by the claim theorems -/

/-- The amended estimate formula: what `estimate_ride_fare` actually
computes — `(2.50 + 1.50 * d)` scaled by the ride-type multiplier and
rounded, with no minimum-fare floor and no surge multiplier. -/
def amendedEstimate (d : ℚ) (c : String) : ℚ :=
  round2 ((5/2 + d * (3/2)) * ride_type_multipliers c)

/-- A concrete database for the acceptance claims: ride 1 is already
ACCEPTED and bound to driver-user 2 (whose profile, record id 5, is busy
with it); driver-user 3 (record id 6) is free. -/
def dbC1 : DB where
  users := [⟨2, "driver"⟩, ⟨3, "driver"⟩, ⟨9, "rider"⟩]
  rides := [{ id := 1, riderId := 9, driverId := some 2,
              status := .accepted, rideType := "economy", passengers := 1,
              distanceKm := 8, estimatedFare := 15, finalFare := none,
              createdAt := 0, acceptedAt := some 0, startedAt := none,
              completedAt := none, cancelledAt := none, cancelledBy := none,
              cancellationReason := "" }]
  drivers := [⟨5, 2, false, some 1, none, "sedan", 0, 0⟩,
              ⟨6, 3, true, none, none, "sedan", 0, 0⟩]
  riders := [⟨9, none, 0⟩]
  driverLocations := []
  payments := []
  notifications := []

/-- A concrete database for the cancel claims: ride 1 is COMPLETED, its
rider is user 1, its driver user 2; user 3 is an unrelated rider. -/
def dbC7 : DB where
  users := [⟨1, "rider"⟩, ⟨2, "driver"⟩, ⟨3, "rider"⟩]
  rides := [{ id := 1, riderId := 1, driverId := some 2,
              status := .completed, rideType := "economy", passengers := 1,
              distanceKm := 8, estimatedFare := 15, finalFare := some 15,
              createdAt := 0, acceptedAt := some 0, startedAt := some 0,
              completedAt := some 600, cancelledAt := none,
              cancelledBy := none, cancellationReason := "" }]
  drivers := [⟨5, 2, true, none, none, "sedan", 15, 1⟩]
  riders := [⟨1, none, 1⟩, ⟨3, none, 0⟩]
  driverLocations := []
  payments := []
  notifications := []

/-- A concrete database for the location claims: user 2 is a driver with
profile record 5, user 3 a rider with a rider record. -/
def dbLoc : DB where
  users := [⟨2, "driver"⟩, ⟨3, "rider"⟩]
  rides := []
  drivers := [⟨5, 2, true, none, none, "sedan", 0, 0⟩]
  riders := [⟨3, none, 0⟩]
  driverLocations := []
  payments := []
  notifications := []

/-- A STARTED economy ride, 8 km, with `started_at = 0` and (as always
before completion) no `completed_at`. -/
def rideC5 : Ride where
  id := 1
  riderId := 1
  driverId := some 2
  status := .started
  rideType := "economy"
  passengers := 1
  distanceKm := 8
  estimatedFare := 29/2
  finalFare := none
  createdAt := 0
  acceptedAt := some 0
  startedAt := some 0
  completedAt := none
  cancelledAt := none
  cancelledBy := none
  cancellationReason := ""

/-- A concrete database for the completion claims: user 2 is the driver
bound to the STARTED ride 1. -/
def dbComplete : DB where
  users := [⟨2, "driver"⟩]
  rides := [rideC5]
  drivers := [⟨5, 2, false, some 1, none, "sedan", 0, 0⟩]
  riders := [⟨1, none, 0⟩]
  driverLocations := []
  payments := []
  notifications := []

/-- A mock distance function for concrete scenarios (the real haversine is
real-valued, hence not executable): it returns the destination longitude,
which reproduces the spec scenario's magnitudes with integer coordinates —
pickup `(0,0)` to destination `(0,9)` is 9 km, pickup to the driver at
`(0,1)` is 1 km, both within the 10 km radius. -/
def distMock : ℚ → ℚ → ℚ → ℚ → ℚ := fun _ _ _ lng2 => lng2

/-- The spec scenario's database: one rider (user 1) and one AVAILABLE
sedan driver (record id 5, user 2) close to the pickup. -/
def dbC2 : DB where
  users := [⟨1, "rider"⟩]
  rides := []
  drivers := [⟨5, 2, true, none, some (.coords 0 1), "sedan", 0, 0⟩]
  riders := [⟨1, none, 0⟩]
  driverLocations := []
  payments := []
  notifications := []

/-- The result of the spec's push-mode scenario: rider 1 requests an
economy ride from `(0,0)` to `(0,9)`; the one available sedan driver is
matched. -/
def resC2 : ApiResult :=
  request_ride distMock (fun _ => 1/2) 0 7 dbC2 1
    (some (.coords 0 0)) (some (.coords 0 9)) (some "economy") none

/-- A database in which rider 1 already has an active (REQUESTED) ride. -/
def dbC3 : DB where
  users := [⟨1, "rider"⟩]
  rides := [{ id := 1, riderId := 1, driverId := none,
              status := .requested, rideType := "economy", passengers := 1,
              distanceKm := 9, estimatedFare := 16, finalFare := none,
              createdAt := 0, acceptedAt := none, startedAt := none,
              completedAt := none, cancelledAt := none, cancelledBy := none,
              cancellationReason := "" }]
  drivers := []
  riders := [⟨1, none, 0⟩]
  driverLocations := []
  payments := []
  notifications := []

/-! ### Helper lemmas about the repository model -/

theorem find?_updateFirst (p : α → Bool) (f : α → α)
    (hf : ∀ a, p a = true → p (f a) = true) (l : List α) :
    List.find? p (updateFirst p f l) = (List.find? p l).map f := by
  induction l with
  | nil => simp [updateFirst]
  | cons x xs ih =>
    by_cases hx : p x = true
    · simp [updateFirst, hx, List.find?_cons_of_pos, hf x hx]
    · have hx' : p x = false := by simpa using hx
      simp [updateFirst, hx', List.find?_cons_of_neg, ih]

theorem updateFirst_append_left (p : α → Bool) (f : α → α)
    (l₁ l₂ : List α) (h : ∀ a ∈ l₁, p a = false) :
    updateFirst p f (l₁ ++ l₂) = l₁ ++ updateFirst p f l₂ := by
  induction l₁ with
  | nil => simp
  | cons x xs ih =>
    have hx := h x (by simp)
    simp only [List.cons_append, updateFirst, hx, Bool.false_eq_true,
      if_false, List.append_eq]
    rw [ih (fun a ha => h a (by simp [ha]))]

theorem filter_eq_nil_of_find?_eq_none (p : α → Bool) (l : List α)
    (h : List.find? p l = none) : l.filter p = [] := by
  rw [List.filter_eq_nil_iff]
  intro a ha
  exact (List.find?_eq_none.mp h) a ha

/-! ### C4 — fare estimate -/

/-- C4, counterexample: at distance 0 for economy the code's estimate is
2.50, while the spec's formula `max(minFare, base + d*perKm) * surge`
yields 5.00 already at surge 1 (and at least 5.00 for any surge ≥ 1):
the estimate has no minimum-fare floor. -/
theorem C4_counterexample :
    estimate_ride_fare 0 "economy" = 5/2 ∧ specEstimate 0 "economy" 1 = 5 := by
  constructor <;>
    norm_num [estimate_ride_fare, specEstimate, ride_type_multipliers,
      min_fares, base_fares, per_km_rates, round2, roundHalfEven]

/-- C4, amended: the estimate equals `(2.50 + 1.50*d) * classMultiplier`
rounded to two decimals — no minimum-fare floor (it can fall below the
class minimum fare) and no surge multiplier; the spec's concrete value
`estimate(10.0, economy) = 17.50` does hold. -/
theorem C4_amended :
    (∀ d c, estimate_ride_fare d c = amendedEstimate d c) ∧
      estimate_ride_fare 10 "economy" = 35/2 ∧
      estimate_ride_fare 0 "economy" < min_fares "economy" := by
  refine ⟨fun _ _ => rfl, ?_, ?_⟩ <;>
    norm_num [estimate_ride_fare, ride_type_multipliers, min_fares,
      round2, roundHalfEven]

/-! ### C6 — surge multiplier -/

/-- C6: the surge multiplier is a deterministic function of hour-of-day and
weekday, equal to 1 plus the peak increment plus the weekend increment
(additive, never compounded), hence always at least 1. -/
theorem C6_surge_additive_ge_one :
    (∀ hour weekday, 1 ≤ get_surge_multiplier hour weekday) ∧
      (∀ hour weekday, get_surge_multiplier hour weekday =
        1 + peak_increment hour + weekend_increment weekday) := by
  constructor <;>
    · intro hour weekday
      simp only [get_surge_multiplier, peak_increment, weekend_increment]
      split_ifs <;> norm_num

/-! ### C5 — final fare of a completed ride -/

/-- C5, amended: on a ride record carrying both `started_at` and
`completed_at`, `calculate_fare` computes exactly the spec's formula
`max(minFare, (base + d*perKm + duration*perMinute) * surge)`, rounded to
two decimal places once, at the return.  (The completion flow, however,
calls it before `completed_at` is written — see the counterexample.) -/
theorem C5_amended (hour weekday : ℕ) (ride : Ride) (s e : ℚ)
    (hs : ride.startedAt = some s) (he : ride.completedAt = some e) :
    calculate_fare hour weekday ride =
      specFinalFare ride.distanceKm ((e - s) / 60) ride.rideType
        (get_surge_multiplier hour weekday) := by
  simp only [calculate_fare, specFinalFare, get_discount_amount, hs, he,
    sub_zero]
  rw [max_comm]

/-- C5, witness for the amended theorem at a concrete ride record. -/
theorem C5_amended_witness :
    calculate_fare 10 0
        { id := 1, riderId := 1, driverId := some 2, status := .started,
          rideType := "economy", passengers := 1, distanceKm := 8,
          estimatedFare := 29/2, finalFare := none, createdAt := 0,
          acceptedAt := none, startedAt := some 0, completedAt := some 720,
          cancelledAt := none, cancelledBy := none, cancellationReason := "" } =
      specFinalFare 8 ((720 - 0) / 60) "economy" (get_surge_multiplier 10 0) :=
  C5_amended 10 0 _ 0 720 rfl rfl

/-! ### C10 — haversine distance -/

/-- C10: the haversine distance is symmetric in its two points,
non-negative for all inputs, and zero when the points coincide. -/
theorem C10_distance_sym_nonneg_zero :
    (∀ lat1 lon1 lat2 lon2 : ℝ,
        calculate_distance lat1 lon1 lat2 lon2 =
          calculate_distance lat2 lon2 lat1 lon1) ∧
      (∀ lat1 lon1 lat2 lon2 : ℝ,
        0 ≤ calculate_distance lat1 lon1 lat2 lon2) ∧
      (∀ lat lon : ℝ, calculate_distance lat lon lat lon = 0) := by
  have key : ∀ x y : ℝ, Real.sin ((x - y) / 2) ^ 2 = Real.sin ((y - x) / 2) ^ 2 := by
    intro x y
    rw [show (x - y) / 2 = -((y - x) / 2) by ring, Real.sin_neg]
    ring
  refine ⟨?_, ?_, ?_⟩
  · intro lat1 lon1 lat2 lon2
    unfold calculate_distance
    have ha : haversine_a lat1 lon1 lat2 lon2 = haversine_a lat2 lon2 lat1 lon1 := by
      unfold haversine_a
      rw [key (radians lat2) (radians lat1), key (radians lon2) (radians lon1)]
      ring
    rw [ha]
  · intro lat1 lon1 lat2 lon2
    unfold calculate_distance
    have h1 : 0 ≤ Real.arcsin (Real.sqrt (haversine_a lat1 lon1 lat2 lon2)) :=
      Real.arcsin_nonneg.mpr (Real.sqrt_nonneg _)
    nlinarith
  · intro lat lon
    unfold calculate_distance
    have ha : haversine_a lat lon lat lon = 0 := by
      unfold haversine_a
      simp
    rw [ha]
    simp

/-! ### C1 — ride acceptance -/

/-- C1, counterexample.  First conjunct: a busy driver's acceptance call
returns HTTP 400 (the spec's `ConflictError` is 409).  Remaining conjuncts:
the ride write of `accept_ride` is filtered by id only — it matches ride 1
even though ride 1 is not REQUESTED — and the socket acceptance path
(`handle_ride_acceptance`, also a ride-acceptance call) does not fail at
all on the non-REQUESTED ride 1: it reports success and rebinds the ride
to driver 3, leaving drivers 2 and 3 both holding `currentRideId = 1`. -/
theorem C1_counterexample :
    accept_ride 0 dbC1 2 1 =
      ⟨400, "Driver already has an active ride", none, dbC1⟩ ∧
    accept_ride_filter 1 (dbC1.rides.get ⟨0, by decide⟩) = true ∧
    (dbC1.rides.get ⟨0, by decide⟩).status ≠ RideStatus.requested ∧
    (handle_ride_acceptance 0 dbC1 (some 3) (some 1)).event =
      SocketEvent.rideAcceptedSuccess ∧
    ((handle_ride_acceptance 0 dbC1 (some 3) (some 1)).db.rides.find?
        (fun r => r.id == 1)).map Ride.driverId = some (some 3) ∧
    ((handle_ride_acceptance 0 dbC1 (some 3) (some 1)).db.drivers.map
        (fun d => (d.userId, d.currentRideId))) = [(2, some 1), (3, some 1)] := by
  refine ⟨rfl, rfl, by decide, rfl, rfl, rfl⟩

/-- C1, amended: for the HTTP accept endpoint, when the ride is not
REQUESTED or the driver is busy, the call fails — with HTTP 400, not the
spec's `ConflictError 409` — and the database is unchanged.  The write
itself is filtered by ride id only (see the counterexample), so the
no-double-acceptance property rests on the separate read-then-check, not
on a conditional update. -/
theorem C1_amended (now : ℚ) (db : DB) (uid rid : ℕ) (u : User) (d : Driver)
    (ride : Ride)
    (hu : List.find? (fun x => x.id == uid) db.users = some u)
    (hut : u.userType = "driver")
    (hd : List.find? (fun x => x.userId == uid) db.drivers = some d)
    (hr : List.find? (fun x => x.id == rid) db.rides = some ride)
    (hfail : d.currentRideId ≠ none ∨ ride.status ≠ RideStatus.requested) :
    (accept_ride now db uid rid).code = 400 ∧
      (accept_ride now db uid rid).db = db := by
  unfold accept_ride
  simp only [hu, hd, hr]
  rw [if_neg (by simp [hut])]
  cases hcr : d.currentRideId with
  | some v => simp [hcr]
  | none =>
    have hst : ride.status ≠ RideStatus.requested := by
      rcases hfail with h | h
      · exact absurd hcr h
      · exact h
    simp [hcr, hst]

/-- C1, witness: the amended theorem applied to the concrete database. -/
theorem C1_amended_witness :
    (accept_ride 0 dbC1 2 1).code = 400 ∧ (accept_ride 0 dbC1 2 1).db = dbC1 :=
  C1_amended 0 dbC1 2 1 ⟨2, "driver"⟩ ⟨5, 2, false, some 1, none, "sedan", 0, 0⟩
    (dbC1.rides.get ⟨0, by decide⟩) rfl rfl rfl rfl
    (Or.inl (by decide))

/-! ### C7 — cancelling a terminal ride -/

/-- C7, counterexample: a cancel call on the COMPLETED ride 1 by user 3 —
an existing user who is neither the ride's rider nor its driver — fails
with the 403 unauthorized error, not with the state error, so "fails with
StateError regardless of which actor issues it" does not hold. -/
theorem C7_counterexample :
    cancel_ride 0 dbC7 3 1 none =
      ⟨403, "You are not authorized to cancel this ride", none, dbC7⟩ ∧
    "You are not authorized to cancel this ride" ≠
      "Ride cannot be cancelled in current status" := by
  exact ⟨rfl, by decide⟩

/-- C7, amended: a cancel call on a COMPLETED or CANCELLED ride by an actor
who is a party to the ride (its rider or its bound driver) fails with the
state error (HTTP 400) and leaves the database unchanged; an actor who is
neither receives the 403 unauthorized error instead. -/
theorem C7_amended (now : ℚ) (db : DB) (uid rid : ℕ) (reason : Option String)
    (u : User) (ride : Ride)
    (hu : List.find? (fun x => x.id == uid) db.users = some u)
    (hr : List.find? (fun x => x.id == rid) db.rides = some ride)
    (hauth : ride.riderId = uid ∨ ride.driverId = some uid)
    (hterm : ride.status = RideStatus.completed ∨
      ride.status = RideStatus.cancelled) :
    cancel_ride now db uid rid reason =
      ⟨400, "Ride cannot be cancelled in current status", none, db⟩ := by
  unfold cancel_ride
  simp only [hu, hr]
  have hnot : ¬(ride.riderId ≠ uid ∧ ride.driverId ≠ some uid) := by
    rcases hauth with h | h
    · exact fun hc => hc.1 h
    · exact fun hc => hc.2 h
  rw [if_neg hnot, if_pos hterm]

/-- C7, witness: the amended theorem applied at the ride's own rider. -/
theorem C7_amended_witness :
    cancel_ride 0 dbC7 1 1 none =
      ⟨400, "Ride cannot be cancelled in current status", none, dbC7⟩ :=
  C7_amended 0 dbC7 1 1 none ⟨1, "rider"⟩ (dbC7.rides.get ⟨0, by decide⟩)
    rfl rfl (Or.inl rfl) (Or.inl rfl)

/-! ### C9 — location updates -/

/-- C9, counterexample: the driver exists, but the submitted location
`lat=91, lng=0` is rejected by `validate_location` — the call fails with
HTTP 400 and nothing is stored, so "the update always succeeds for every
submitted location payload" does not hold. -/
theorem C9_counterexample :
    update_driver_location dbLoc 2 (some (.coords 91 0)) =
      ⟨400, "Invalid location data", none, dbLoc⟩ := by
  rfl

/-- C9, amended: for an existing actor of the right type with a stored
profile record, a location update succeeds (HTTP 200) and replaces the
stored location exactly when the payload passes `validate_location`
(a dict with numeric `lat ∈ [-90, 90]` and `lng ∈ [-180, 180]`); a payload
failing validation is rejected with HTTP 400 and no record is modified.
This holds for the driver and the rider endpoint alike. -/
theorem C9_amended :
    (∀ (db : DB) (uid : ℕ) (pay : LocPayload) (u : User) (d : Driver),
      List.find? (fun x => x.id == uid) db.users = some u →
      u.userType = "driver" →
      List.find? (fun x => x.userId == uid) db.drivers = some d →
      (validate_location pay = true →
        (update_driver_location db uid (some pay)).code = 200 ∧
        (List.find? (fun x => x.userId == uid)
            (update_driver_location db uid (some pay)).db.drivers).map
          Driver.currentLocation = some (some pay)) ∧
      (validate_location pay = false →
        update_driver_location db uid (some pay) =
          ⟨400, "Invalid location data", none, db⟩)) ∧
    (∀ (db : DB) (uid : ℕ) (pay : LocPayload) (u : User) (r : RiderRec),
      List.find? (fun x => x.id == uid) db.users = some u →
      u.userType = "rider" →
      List.find? (fun x => x.userId == uid) db.riders = some r →
      (validate_location pay = true →
        (update_rider_location db uid (some pay)).code = 200 ∧
        (List.find? (fun x => x.userId == uid)
            (update_rider_location db uid (some pay)).db.riders).map
          RiderRec.currentLocation = some (some pay)) ∧
      (validate_location pay = false →
        update_rider_location db uid (some pay) =
          ⟨400, "Invalid location data", none, db⟩)) := by
  constructor
  · intro db uid pay u d hu hut hd
    constructor
    · intro hv
      unfold update_driver_location
      simp only [hu]
      rw [if_neg (by simp [hut]), hv, if_neg (by simp),
        show matchedOne (fun x => x.userId == uid) db.drivers = true by
          simp [matchedOne, hd],
        if_pos rfl]
      refine ⟨rfl, ?_⟩
      have := find?_updateFirst (fun x : Driver => x.userId == uid)
        (fun x => { x with currentLocation := some pay })
        (fun a ha => ha) db.drivers
      simp only [this, hd]
      rfl
    · intro hv
      unfold update_driver_location
      simp only [hu]
      rw [if_neg (by simp [hut]), hv, if_pos rfl]
  · intro db uid pay u r hu hut hr
    constructor
    · intro hv
      unfold update_rider_location
      simp only [hu]
      rw [if_neg (by simp [hut]), hv, if_neg (by simp),
        show matchedOne (fun x => x.userId == uid) db.riders = true by
          simp [matchedOne, hr],
        if_pos rfl]
      refine ⟨rfl, ?_⟩
      have := find?_updateFirst (fun x : RiderRec => x.userId == uid)
        (fun x => { x with currentLocation := some pay })
        (fun a ha => ha) db.riders
      simp only [this, hr]
      rfl
    · intro hv
      unfold update_rider_location
      simp only [hu]
      rw [if_neg (by simp [hut]), hv, if_pos rfl]

/-- C9, witness: the amended theorem at a concrete valid driver update and
a concrete invalid rider update. -/
theorem C9_amended_witness :
    ((update_driver_location dbLoc 2 (some (.coords 10 20))).code = 200 ∧
      (List.find? (fun x => x.userId == 2)
          (update_driver_location dbLoc 2 (some (.coords 10 20))).db.drivers).map
        Driver.currentLocation = some (some (.coords 10 20))) ∧
    update_rider_location dbLoc 3 (some .notDict) =
      ⟨400, "Invalid location data", none, dbLoc⟩ :=
  ⟨(C9_amended.1 dbLoc 2 (.coords 10 20) ⟨2, "driver"⟩
      ⟨5, 2, true, none, none, "sedan", 0, 0⟩ rfl rfl rfl).1 (by decide),
    (C9_amended.2 dbLoc 3 .notDict ⟨3, "rider"⟩ ⟨3, none, 0⟩ rfl rfl rfl).2 rfl⟩

/-! ### C8 and C5 — completing a ride -/

/-- The fare `calculate_fare` produces for `rideC5` off-peak: with no
`completed_at` on the record the time component is 0, so the fare is
`round2(max(2.50 + 8 * 1.50, 5.00)) = 14.50`. -/
theorem calc_fare_rideC5 : calculate_fare 10 0 rideC5 = 29/2 := by
  norm_num [calculate_fare, rideC5, base_fares, per_km_rates,
    per_minute_rates, min_fares, get_surge_multiplier, get_discount_amount,
    max_def, round2, roundHalfEven]

/-- C8, amended: `complete_ride` never reads the request body, so any
`final_fare` override submitted with the request is ignored: the call's
result is identical for every override, and both the returned fare and the
stored `final_fare` equal `calculate_fare` of the ride as found. -/
theorem C8_amended (hour weekday : ℕ) (now : ℚ) (db : DB) (uid rid : ℕ)
    (u : User) (ride : Ride)
    (hu : List.find? (fun x => x.id == uid) db.users = some u)
    (hut : u.userType = "driver")
    (hr : List.find? (fun x => x.id == rid) db.rides = some ride)
    (hd : ride.driverId = some uid)
    (hst : ride.status = RideStatus.started) :
    ∀ dataA dataB : Option ℚ,
      complete_ride hour weekday now db uid rid dataA =
        complete_ride hour weekday now db uid rid dataB ∧
      (complete_ride hour weekday now db uid rid dataA).fare =
        some (calculate_fare hour weekday ride) ∧
      (List.find? (fun x => x.id == rid)
          (complete_ride hour weekday now db uid rid dataA).db.rides).map
        Ride.finalFare = some (some (calculate_fare hour weekday ride)) := by
  intro dataA dataB
  refine ⟨rfl, ?_⟩
  unfold complete_ride
  simp only [hu]
  rw [if_neg (by simp [hut])]
  simp only [hr, hd]
  rw [if_neg (by simp), if_neg (by simp [hst])]
  rw [show matchedOne (fun x : Ride => x.id == rid) db.rides = true by
    simp [matchedOne, hr], if_pos rfl]
  refine ⟨rfl, ?_⟩
  rw [find?_updateFirst (fun x : Ride => x.id == rid)
    (fun r => { r with
      status := RideStatus.completed
      completedAt := some now
      finalFare := some (calculate_fare hour weekday ride) })
    (fun a ha => ha) db.rides]
  rw [hr]
  rfl

/-- C8, witness: the amended theorem at the concrete database, comparing
the override `999` against no override. -/
theorem C8_amended_witness :
    complete_ride 10 0 720 dbComplete 2 1 (some 999) =
      complete_ride 10 0 720 dbComplete 2 1 none ∧
    (complete_ride 10 0 720 dbComplete 2 1 (some 999)).fare =
      some (calculate_fare 10 0 rideC5) ∧
    (List.find? (fun x => x.id == 1)
        (complete_ride 10 0 720 dbComplete 2 1 (some 999)).db.rides).map
      Ride.finalFare = some (some (calculate_fare 10 0 rideC5)) :=
  C8_amended 10 0 720 dbComplete 2 1 ⟨2, "driver"⟩ rideC5
    rfl rfl rfl rfl rfl (some 999) none

/-- C8, counterexample: completing ride 1 with the override `999` still
returns the calculator's fare 14.50, not the override — "the ride's
recorded finalFare equals that override" fails at this input. -/
theorem C8_counterexample :
    (complete_ride 10 0 720 dbComplete 2 1 (some 999)).fare = some (29/2) ∧
    ((complete_ride 10 0 720 dbComplete 2 1 (some 999)).db.rides.find?
        (fun r => r.id == 1)).map Ride.finalFare = some (some (29/2)) ∧
    (29/2 : ℚ) ≠ 999 := by
  have h1 : (complete_ride 10 0 720 dbComplete 2 1 (some 999)).fare =
      some (calculate_fare 10 0 rideC5) := rfl
  have h2 : ((complete_ride 10 0 720 dbComplete 2 1 (some 999)).db.rides.find?
      (fun r => r.id == 1)).map Ride.finalFare =
      some (some (calculate_fare 10 0 rideC5)) := rfl
  rw [h1, h2, calc_fare_rideC5]
  refine ⟨rfl, rfl, by norm_num⟩

/-- C5, counterexample: driver 2 completes the STARTED ride 1 at time 720
(12 minutes after `started_at = 0`).  The resulting COMPLETED ride has both
timestamps known, distance 8, economy class, and stored finalFare 14.50;
the spec formula with the 12-minute time component gives 16.30 (surge is 1
at hour 10, weekday 0).  The stored fare omits the time component because
`calculate_fare` is invoked before `completed_at` is written. -/
theorem C5_counterexample :
    ((complete_ride 10 0 720 dbComplete 2 1 none).db.rides.find?
        (fun r => r.id == 1)).map
      (fun r => (r.status, r.startedAt, r.completedAt, r.finalFare)) =
      some (RideStatus.completed, some 0, some 720, some (29/2)) ∧
    get_surge_multiplier 10 0 = 1 ∧
    specFinalFare 8 ((720 - 0) / 60) "economy" (get_surge_multiplier 10 0) =
      163/10 ∧
    (29/2 : ℚ) ≠ 163/10 := by
  have h1 : ((complete_ride 10 0 720 dbComplete 2 1 none).db.rides.find?
      (fun r => r.id == 1)).map
      (fun r => (r.status, r.startedAt, r.completedAt, r.finalFare)) =
      some (RideStatus.completed, some 0, some 720,
        some (calculate_fare 10 0 rideC5)) := rfl
  have hs : get_surge_multiplier 10 0 = 1 := by
    norm_num [get_surge_multiplier]
  refine ⟨?_, hs, ?_, by norm_num⟩
  · rw [h1, calc_fare_rideC5]
  · rw [hs]
    norm_num [specFinalFare, base_fares, per_km_rates, per_minute_rates,
      min_fares, max_def, round2, roundHalfEven]

/-! ### C2 — push-mode auto-assignment and the busy invariant -/

/-- C2: evaluating the push-mode scenario.  The request succeeds (201) and
the ride is set to ACCEPTED with the matched driver's id — but the driver
collection is left exactly as it was: the assigned driver still has
`current_ride_id = None` and `is_online = True`, i.e. the driver is never
marked busy, violating the BUSY ⇔ one-active-ride invariant (and enabling
the same driver to be auto-assigned again). -/
theorem C2_bug :
    resC2.code = 201 ∧
    (resC2.db.rides.find? (fun r => r.id == 7)).map
      (fun r => (r.status, r.driverId)) = some (RideStatus.accepted, some 5) ∧
    resC2.db.drivers = dbC2.drivers ∧
    (resC2.db.drivers.find? (fun d => d.userId == 2)).map
      (fun d => (d.currentRideId, d.isOnline)) = some (none, true) :=
  ⟨rfl, rfl, rfl, rfl⟩

/-! ### C3 — one active ride per rider -/

/-- `update_one` on a singleton whose record matches the filter. -/
theorem updateFirst_singleton (p : α → Bool) (f : α → α) (x : α)
    (h : p x = true) : updateFirst p f [x] = [f x] := by
  simp [updateFirst, h]

/-- If every rider has at most one active ride in `rides`, the rider of
`nr` has none, and `nr` is appended, the bound still holds. -/
theorem atMostOne_append_single (rides : List Ride) (nr : Ride)
    (hLen : ∀ v, (rides.filter (activeRideOf v)).length ≤ 1)
    (hnone : List.find? (activeRideOf nr.riderId) rides = none) :
    ∀ v, ((rides ++ [nr]).filter (activeRideOf v)).length ≤ 1 := by
  intro v
  rw [List.filter_append]
  by_cases hv : activeRideOf v nr = true
  · have hvid : nr.riderId = v := by
      have := hv
      simp only [activeRideOf, Bool.and_eq_true, beq_iff_eq] at this
      exact this.1
    rw [← hvid]
    rw [filter_eq_nil_of_find?_eq_none _ _ hnone]
    simpa using List.length_filter_le (activeRideOf nr.riderId) [nr]
  · have hv' : activeRideOf v nr = false := by simpa using hv
    simp [hv']
    simpa using hLen v

/-- C3, counterexample: rider 1 already has an active ride; the request is
rejected with HTTP 400 — not the claimed `ConflictError` HTTP 409 — and
nothing is inserted. -/
theorem C3_counterexample :
    request_ride distMock (fun _ => 1/2) 0 7 dbC3 1
        (some (.coords 0 0)) (some (.coords 0 9)) (some "economy") none =
      ⟨400, "You already have an active ride", none, dbC3⟩ ∧
    (400 : ℕ) ≠ 409 :=
  ⟨rfl, by decide⟩

/-- C3, amended: a ride request by a rider who already has a ride in an
active status (REQUESTED, ACCEPTED, ENROUTE, or STARTED) fails with HTTP
400 — not 409 — carrying the conflict message, and the database is
unchanged; consequently (second conjunct) every `request_ride` call, on a
database whose ride ids avoid the freshly generated id, preserves the
invariant that each rider has at most one active ride. -/
theorem C3_amended :
    (∀ (distFn : ℚ → ℚ → ℚ → ℚ → ℚ) (rand : ℕ → ℚ) (now : ℚ) (newId : ℕ)
      (db : DB) (uid : ℕ) (pickup destination : Option LocPayload)
      (ride_type : Option String) (passengers : Option ℕ) (u : User)
      (r : Ride),
      List.find? (fun x => x.id == uid) db.users = some u →
      u.userType = "rider" →
      (validate_ride_data pickup destination ride_type).1 = true →
      List.find? (activeRideOf uid) db.rides = some r →
      request_ride distFn rand now newId db uid pickup destination ride_type
          passengers =
        ⟨400, "You already have an active ride", none, db⟩) ∧
    (∀ (distFn : ℚ → ℚ → ℚ → ℚ → ℚ) (rand : ℕ → ℚ) (now : ℚ) (newId : ℕ)
      (db : DB) (uid : ℕ) (pickup destination : Option LocPayload)
      (ride_type : Option String) (passengers : Option ℕ),
      (∀ x ∈ db.rides, (x.id == newId) = false) →
      (∀ v, (db.rides.filter (activeRideOf v)).length ≤ 1) →
      ∀ v, (((request_ride distFn rand now newId db uid pickup destination
          ride_type passengers).db.rides.filter (activeRideOf v)).length ≤ 1)) := by
  constructor
  · intro distFn rand now newId db uid pickup destination ride_type passengers
      u r hu hut hval hact
    simp only [request_ride]
    rw [if_neg (by simp [hval])]
    simp only [hu]
    rw [if_neg (by simp [hut])]
    simp only [hact]
  · intro distFn rand now newId db uid pickup destination ride_type passengers
      hfresh hbound v
    simp only [request_ride]
    split
    · exact hbound v
    split
    · exact hbound v
    split
    · exact hbound v
    split
    · exact hbound v
    rename_i hact
    split
    all_goals try exact hbound v
    rename_i plat plng dlat dlng hpk
    split
    · rename_i driver hdrv
      rw [updateFirst_append_left _ _ db.rides _ hfresh,
        updateFirst_singleton _ _ _ (by simp)]
      exact atMostOne_append_single db.rides _ hbound (by simpa using hact) v
    · exact atMostOne_append_single db.rides _ hbound (by simpa using hact) v

/-- C3, witness: the amended theorem's error branch at the concrete
conflicted database, and its preservation branch at the scenario database
(the branch that inserts and auto-assigns), evaluated for rider 1. -/
theorem C3_amended_witness :
    request_ride distMock (fun _ => 1/2) 0 7 dbC3 1
        (some (.coords 0 0)) (some (.coords 0 9)) (some "economy") none =
      ⟨400, "You already have an active ride", none, dbC3⟩ ∧
    ((request_ride distMock (fun _ => 1/2) 0 7 dbC2 1
        (some (.coords 0 0)) (some (.coords 0 9)) (some "economy")
        none).db.rides.filter (activeRideOf 1)).length ≤ 1 :=
  ⟨C3_amended.1 distMock (fun _ => 1/2) 0 7 dbC3 1
      (some (.coords 0 0)) (some (.coords 0 9)) (some "economy") none
      ⟨1, "rider"⟩ (dbC3.rides.get ⟨0, by decide⟩) rfl rfl (by decide) rfl,
    C3_amended.2 distMock (fun _ => 1/2) 0 7 dbC2 1
      (some (.coords 0 0)) (some (.coords 0 9)) (some "economy") none
      (by decide)
      (fun v => le_trans (List.length_filter_le _ dbC2.rides) (by decide)) 1⟩
